import Mathlib

/-!
Verification development for the DEX-Trader-Backend order intake and
settlement orchestration pipeline.

This file shallowly embeds the order pipeline implemented in
`src/lambda/assetAdmin/index.ts` (second document: the WebSocket order
handler with on-chain settlement, whose validation/storage/notification
logic is shared verbatim with `src/lambda/matcher/index.ts`) and proves
properties about it.

Modelling conventions:
- JavaScript strings are embedded as `List Char` (written via `"...".data`),
  so that all string operations (split, trim, upper/lower case, append)
  are structurally recursive and kernel-computable.
- An untyped JavaScript value (a JSON field of the inbound payload) is the
  inductive `JsVal`; JS truthiness is the executable `truthy`.
- `ethers.parseUnits(value, decimals)` is embedded as `parseUnits` over the
  decimal-string grammar it accepts (optional sign, integer digits,
  optional fraction; it throws when the fraction is longer than the asset's
  declared decimals).  JS `Number.prototype.toString` on a decimal literal
  is `renderNum` (a JS number written with `e` fractional digits is
  modelled as mantissa × 10^(-e); scientific notation for extreme
  magnitudes is out of modelled range).
- `ethers.id` (keccak-256 of the symbol) is modelled as the identity on
  normalized symbols: it is a collision-free stable identifier, and only
  its injectivity on the eight registry symbols is relevant.
- BigInt division truncates toward zero, which is `Int.tdiv`.
- External effects (DynamoDB puts/updates, SQS send, the settlement
  contract call, WebSocket posts) are recorded as an ordered `List Event`;
  their success/failure outcomes are oracles in `Env`, mirroring the
  try/catch structure of the handler.
-/

/-! ## JavaScript value model -/

/-- A JavaScript/JSON value as it can occur in an inbound order payload.
`undef` models an absent field (`undefined`).  A JS number written in
decimal with `e` fractional digits is `num m e`, denoting `m × 10^(-e)`. -/
inductive JsVal where
  | undef : JsVal
  | null : JsVal
  | bool : Bool → JsVal
  | num : Int → Nat → JsVal
  | str : List Char → JsVal
deriving DecidableEq, Repr

/-- JavaScript truthiness: `undefined`, `null`, `false`, `0` and `""` are
falsy; every other modelled value is truthy. -/
def truthy : JsVal → Bool
  | .undef => false
  | .null => false
  | .bool b => b
  | .num m _ => m ≠ 0
  | .str s => s ≠ []

/-! ## Character/string helpers (JS semantics on `List Char`) -/

/-- `String.prototype.toUpperCase` on ASCII. -/
def toUpperList (s : List Char) : List Char := s.map Char.toUpper

/-- `String.prototype.toLowerCase` on ASCII. -/
def toLowerList (s : List Char) : List Char := s.map Char.toLower

/-- JS whitespace for `String.prototype.trim` (ASCII fragment). -/
def isWsChar (c : Char) : Bool := c = ' ' ∨ c = '\t' ∨ c = '\n' ∨ c = '\r'

/-- `String.prototype.trim`. -/
def trimList (s : List Char) : List Char :=
  ((s.dropWhile isWsChar).reverse.dropWhile isWsChar).reverse

/-- `String.prototype.split` with a single-character separator. -/
def splitOnChar (sep : Char) : List Char → List (List Char)
  | [] => [[]]
  | c :: rest =>
    let r := splitOnChar sep rest
    if c = sep then [] :: r
    else
      match r with
      | [] => [[c]]
      | g :: gs => (c :: g) :: gs

/-- Join a list of strings with a separator: `Array.prototype.join`. -/
def joinSep (sep : List Char) : List (List Char) → List Char
  | [] => []
  | [x] => x
  | x :: xs => x ++ sep ++ joinSep sep xs

/-- `x` occurs as a contiguous segment of `m` ("the message contains x"). -/
def appearsIn (x m : List Char) : Prop := ∃ l r, m = l ++ (x ++ r)

/-! ## Decimal parsing and rendering (ethers.parseUnits / Number.toString) -/

def isDigitCh (c : Char) : Bool := '0' ≤ c ∧ c ≤ '9'

/-- Numeric value of a digit string (most significant first). -/
def digitsToNat (s : List Char) : Nat :=
  s.foldl (fun acc c => acc * 10 + (c.toNat - '0'.toNat)) 0

/-- Parse the decimal-string grammar accepted by `ethers.parseUnits`:
optional leading `-`, integer digits, optional `.` and fraction digits,
with at least one digit overall.  Returns (negative?, integer digits,
fraction digits). -/
def parseDecimal (s : List Char) : Option (Bool × List Char × List Char) :=
  let (neg, rest) :=
    match s with
    | '-' :: r => (true, r)
    | r => (false, r)
  match splitOnChar '.' rest with
  | [ip] =>
    if ip ≠ [] ∧ ip.all isDigitCh then some (neg, ip, []) else none
  | [ip, fp] =>
    if (ip ≠ [] ∨ fp ≠ []) ∧ ip.all isDigitCh ∧ fp.all isDigitCh then
      some (neg, ip, fp)
    else none
  | _ => none

/-- `ethers.parseUnits(value, decimals)`: scale a decimal string to an
integer with `decimals` fractional digits; `none` models the thrown
numeric-fault error (invalid grammar, or more fraction digits than the
declared decimals). -/
def parseUnits (s : List Char) (decimals : Nat) : Option Int :=
  match parseDecimal s with
  | none => none
  | some (neg, ip, fp) =>
    if fp.length ≤ decimals then
      let mag : Nat :=
        digitsToNat ip * 10 ^ decimals + digitsToNat fp * 10 ^ (decimals - fp.length)
      some (if neg then -(mag : Int) else (mag : Int))
    else none

/-- `Number.prototype.toString` for a decimal literal `m × 10^(-e)`:
the digits of `|m|` padded to at least `e+1` digits, with a decimal point
inserted before the last `e` digits when `e > 0`, and a leading `-` for
negative values. -/
def renderNum (m : Int) (e : Nat) : List Char :=
  let digits := Nat.toDigits 10 m.natAbs
  let padded := List.replicate (e + 1 - digits.length) '0' ++ digits
  let body :=
    if e = 0 then padded
    else padded.take (padded.length - e) ++ '.' :: padded.drop (padded.length - e)
  if m < 0 then '-' :: body else body

/-- `String(v)` as applied by the handler before storage / parseUnits. -/
def jsToString : JsVal → List Char
  | .undef => "undefined".data
  | .null => "null".data
  | .bool true => "true".data
  | .bool false => "false".data
  | .num m e => renderNum m e
  | .str s => s

/-! ## Errors thrown by the settlement computation -/

/-- Errors thrown inside `calculateBalanceUpdates` (and its helpers
`parseTradingPair`, `normalizeSymbol`, `toBigInt`).  `numericFault` stands
for the error `ethers.parseUnits` throws on an unparsable or
over-precise value; `notAString` stands for the TypeError raised when a
non-string reaches a string operation. -/
inductive DexError where
  | malformedPair : List Char → DexError
  | unsupportedAsset : List Char → DexError
  | numericFault : List Char → DexError
  | notAString : DexError
deriving DecidableEq, Repr

/-- The `err.message` the handler forwards in its settlement-computation
ORDER_ERROR notification. -/
def DexError.message : DexError → List Char
  | .malformedPair p => "Unable to parse trading pair symbol: ".data ++ p
  | .unsupportedAsset s => "Unsupported asset symbol: ".data ++ s
  | .numericFault v => "invalid decimal value: ".data ++ v
  | .notAString => "value must be a string".data

/-! ## Asset registry and trading pair parser -/

/-- The static asset table `assetMeta` (symbol, declared decimals). -/
def assetMeta : List (List Char × Nat) :=
  [("USDT".data, 6), ("BTC".data, 8), ("ETH".data, 18), ("SOL".data, 9),
   ("AVAX".data, 18), ("LINK".data, 18), ("DOGE".data, 8), ("SUI".data, 9)]

/-- `assetDecimals[symbol]` lookup; `none` when the symbol is not in the
static table. -/
def lookupDecimals (sym : List Char) : Option Nat :=
  (assetMeta.find? (fun p => p.1 = sym)).map (·.2)

/-- `ethers.id(symbol)`: a stable, collision-free asset identifier derived
from the normalized symbol, modelled as the symbol itself. -/
def assetIdOf (sym : List Char) : List Char := sym

/-- `normalizeSymbol`: trim, upper-case, and require membership in the
static asset table. -/
def normalizeSymbol (s : List Char) : Except DexError (List Char) :=
  let normalized := toUpperList (trimList s)
  if (lookupDecimals normalized).isSome then .ok normalized
  else .error (.unsupportedAsset normalized)

/-- The fixed separator candidates `supportedPairSeparators = ["/", "-", "_"]`. -/
def supportedPairSeparators : List Char := ['/', '-', '_']

/-- The first supported separator contained in the composite symbol, in
candidate order — this is the separator the source's `for` loop commits to. -/
def findSep (s : List Char) : Option Char :=
  if '/' ∈ s then some '/'
  else if '-' ∈ s then some '-'
  else if '_' ∈ s then some '_'
  else none

/-- `parseTradingPair`: split the composite symbol on the first supported
separator it contains; throw the malformed-pair error when no separator is
present or either side is empty (the source `break`s out of the loop in
that case), and normalize both sides through the registry otherwise. -/
def parseTradingPair (pair : List Char) : Except DexError (List Char × List Char) :=
  match findSep pair with
  | none => .error (.malformedPair pair)
  | some sep =>
    let parts := splitOnChar sep pair
    let base := parts.headD []
    let quote := (parts.drop 1).headD []
    if base = [] ∨ quote = [] then .error (.malformedPair pair)
    else
      match normalizeSymbol base with
      | .error e => .error e
      | .ok b =>
        match normalizeSymbol quote with
        | .error e => .error e
        | .ok q => .ok (b, q)

/-! ## Settlement calculator -/

/-- `toBigInt(value, decimals)`: stringify a JS number and scale through
`ethers.parseUnits`; strings are passed through directly.  Any other value
type makes ethers throw. -/
def toBigInt (v : JsVal) (decimals : Nat) : Except DexError Int :=
  match v with
  | .num m e =>
    match parseUnits (renderNum m e) decimals with
    | some i => .ok i
    | none => .error (.numericFault (renderNum m e))
  | .str s =>
    match parseUnits s decimals with
    | some i => .ok i
    | none => .error (.numericFault s)
  | _ => .error .notAString

/-- One signed movement of one asset for one account.  The source
stringifies `amount` for the contract call; the integer value is kept. -/
structure BalanceUpdate where
  account : JsVal
  assetId : List Char
  amount : Int
deriving DecidableEq, Repr

instance : Inhabited BalanceUpdate := ⟨⟨.undef, [], 0⟩⟩

/-- Result record of `calculateBalanceUpdates`. -/
structure SettlementComputation where
  balanceUpdates : List BalanceUpdate
  baseSymbol : List Char
  quoteSymbol : List Char
  baseAmount : Int
  quoteAmount : Int
deriving DecidableEq, Repr

/-- The inbound order payload: the six fields the handler reads.  Each is
an untyped JS value; an absent field is `JsVal.undef`. -/
structure Payload where
  symbol : JsVal
  price : JsVal
  qty : JsVal
  owner : JsVal
  type : JsVal
  side : JsVal
deriving DecidableEq, Repr

/-- The effective side string: `(order.side || "BUY").toString().toUpperCase()`. -/
def effectiveSide (order : Payload) : List Char :=
  toUpperList (jsToString (if truthy order.side then order.side else .str "BUY".data))

/-- `calculateBalanceUpdates(order)`, with the venue's opposing wallet
address (env `OPPOSING_WALLET_ADDRESS`) passed explicitly.  Emits the four
balance updates in source order: buyer quote, buyer base, seller quote,
seller base. -/
def calculateBalanceUpdates (opposing : List Char) (order : Payload) :
    Except DexError SettlementComputation :=
  match order.symbol with
  | .str sym =>
    match parseTradingPair sym with
    | .error e => .error e
    | .ok (baseSymbol, quoteSymbol) =>
      let baseDecimals := (lookupDecimals baseSymbol).getD 0
      let quoteDecimals := (lookupDecimals quoteSymbol).getD 0
      let isBuy : Bool := effectiveSide order ≠ "SELL".data
      match toBigInt order.qty baseDecimals with
      | .error e => .error e
      | .ok baseAmount =>
        match toBigInt order.price quoteDecimals with
        | .error e => .error e
        | .ok priceAmount =>
          let baseScale : Int := 10 ^ baseDecimals
          let quoteAmount : Int := Int.tdiv (baseAmount * priceAmount) baseScale
          let buyerAddress := if isBuy then order.owner else .str opposing
          let sellerAddress := if isBuy then .str opposing else order.owner
          .ok
            { balanceUpdates :=
                [ { account := buyerAddress, assetId := assetIdOf quoteSymbol,
                    amount := if isBuy then -quoteAmount else quoteAmount },
                  { account := buyerAddress, assetId := assetIdOf baseSymbol,
                    amount := if isBuy then baseAmount else -baseAmount },
                  { account := sellerAddress, assetId := assetIdOf quoteSymbol,
                    amount := if isBuy then quoteAmount else -quoteAmount },
                  { account := sellerAddress, assetId := assetIdOf baseSymbol,
                    amount := if isBuy then -baseAmount else baseAmount } ],
              baseSymbol := baseSymbol,
              quoteSymbol := quoteSymbol,
              baseAmount := baseAmount,
              quoteAmount := quoteAmount }
  | _ => .error .notAString

deriving instance DecidableEq for Except

/-! ## Order intake validation (the handler's required-field check) -/

/-- `typeof order.type === "string" ? order.type.toLowerCase() : undefined`. -/
def orderTypeOf (order : Payload) : Option (List Char) :=
  match order.type with
  | .str s => some (toLowerList s)
  | _ => none

/-- The `type` conjunct of the required-field check:
`orderType` is defined and equals `"limit"` or `"market"`. -/
def typeFieldOk (order : Payload) : Bool :=
  match orderTypeOf order with
  | some t => t = "limit".data ∨ t = "market".data
  | none => false

/-- The handler's required-field condition (negation of the big `if`):
`symbol`, `price`, `qty`, `owner` truthy and the order type valid. -/
def validOrder (order : Payload) : Bool :=
  truthy order.symbol && truthy order.price && truthy order.qty &&
    truthy order.owner && typeFieldOk order

/-- The `missing` array: one entry per failing conjunct, in source order. -/
def missingFields (order : Payload) : List (List Char) :=
  (if truthy order.symbol then [] else ["symbol".data]) ++
  (if truthy order.price then [] else ["price".data]) ++
  (if truthy order.qty then [] else ["qty".data]) ++
  (if truthy order.owner then [] else ["owner".data]) ++
  (if typeFieldOk order then [] else ["type (limit or market)".data])

/-- The composite rejection message
`"Missing required fields: " + missing.join(", ")`. -/
def rejectionMessage (order : Payload) : List Char :=
  "Missing required fields: ".data ++ joinSep ", ".data (missingFields order)

/-! ## Orchestrator state: events, environment, handler -/

/-- A WebSocket notification payload, keeping the fields the spec's claims
inspect: the `channel` added by `sendOrderMessage` (absent for the one raw
`sendToConnection` call), the event `type` (absent for that same call),
`status`, and `message`.  Order/trade snapshot fields of the richer
payloads are not modelled; no claim references them. -/
structure Notif where
  channel : Option (List Char)
  evType : Option (List Char)
  status : Option (List Char)
  message : Option (List Char)
deriving DecidableEq, Repr

/-- An `ORDER_ERROR` notification as sent by `sendOrderMessage`. -/
def orderErrorNotif (msg : List Char) : Notif :=
  { channel := some "orders".data, evType := some "ORDER_ERROR".data,
    status := some "ERROR".data, message := some msg }

/-- The DynamoDB order item written by the handler (attribute per field;
`price`/`qty` are stored stringified, `side` is stored as
`order.side || "BUY"` verbatim). -/
structure StoredOrder where
  symbol : JsVal
  orderId : List Char
  owner : JsVal
  price : List Char
  qty : List Char
  side : JsVal
  orderType : List Char
  status : List Char
  createdAt : List Char
  updatedAt : List Char
deriving DecidableEq, Repr

/-- The DynamoDB trade item written by the handler on a match.  It carries
no settlement fields; `settlementTxHash`/`settlementBlockNumber` are only
ever attached by the later `UpdateItemCommand`. -/
structure StoredTrade where
  symbol : JsVal
  tradeId : List Char
  orderId : List Char
  owner : JsVal
  price : List Char
  qty : List Char
  side : JsVal
  orderType : List Char
  matchedAt : List Char
  createdAt : List Char
deriving DecidableEq, Repr

/-- A transaction receipt returned by `tx.wait(...)`. -/
structure Receipt where
  txHash : List Char
  blockNumber : Nat
deriving DecidableEq, Repr

/-- One externally observable side effect of a handler invocation, in
issue order. -/
inductive Event where
  | notify : Notif → Event
  | putOrder : StoredOrder → Event
  | putTrade : StoredTrade → Event
  | settleBatch : List Char → List BalanceUpdate → Event
  | updateTrade : List Char → List Char → Nat → Event
  | sqsSend : List Char → Event
deriving DecidableEq, Repr

/-- The environment of one invocation: request context, generated
identifiers and timestamps, configuration, and the outcome oracles of the
external systems (each `try`/`catch` in the source is driven by one
oracle).  `coin` is the value of `Math.random() > 0.5`. -/
structure Env where
  connectionId : List Char
  orderId : List Char
  tradeId : List Char
  now : List Char
  matchedNow : List Char
  opposing : List Char
  coin : Bool
  storeOrderOk : Bool
  storeTradeOk : Bool
  settleResult : Option Receipt
  queueOk : Bool
deriving DecidableEq, Repr

/-- `sendToConnection` / `sendOrderMessage`: posts nothing when the
connection id is falsy (the source returns early after logging). -/
def sendEv (connectionId : List Char) (n : Notif) : List Event :=
  if connectionId = [] then [] else [.notify n]

/-- `ethers.id(tradeId)`: the deterministic trade hash bound to the
settlement call, modelled as the identity on the fresh trade id. -/
def tradeHashOf (tradeId : List Char) : List Char := tradeId

/-- The match decision: `orderType === "market" ? true : Math.random() > 0.5`. -/
def matchDecision (orderType : List Char) (coin : Bool) : Bool :=
  if orderType = "market".data then true else coin

/-- Result of one handler invocation: the HTTP status code of the returned
response and the ordered external side effects. -/
structure HandlerResult where
  statusCode : Nat
  events : List Event
deriving DecidableEq, Repr

/-- The rejection branch of the required-field check: one composite
ORDER_ERROR notification, HTTP 400, no other side effect. -/
def rejectInvalid (env : Env) (order : Payload) : HandlerResult :=
  ⟨400, sendEv env.connectionId (orderErrorNotif (rejectionMessage order))⟩

/-- The pipeline past validation (`orderType` is the validated lower-cased
order type).  Mirrors the source statement for statement: match decision,
order put, ORDER_RECEIVED, and on a match: trade put, settlement
computation, `settleBatch` submission + confirmation, best-effort trade
enrichment, SQS hand-off, final ORDER_MATCHED/ORDER_STORED notification. -/
def proceed (env : Env) (order : Payload) (orderType : List Char) : HandlerResult :=
  let matched := matchDecision orderType env.coin
  let status := if matched then "FILLED".data else "PENDING".data
  let updatedAt := if matched then env.matchedNow else env.now
  let storedOrder : StoredOrder :=
    { symbol := order.symbol, orderId := env.orderId, owner := order.owner,
      price := jsToString order.price, qty := jsToString order.qty,
      side := if truthy order.side then order.side else .str "BUY".data,
      orderType := orderType, status := status,
      createdAt := env.now, updatedAt := updatedAt }
  if ¬env.storeOrderOk then
    ⟨500, [.putOrder storedOrder] ++
      sendEv env.connectionId
        { channel := none, evType := none, status := some "ERROR".data,
          message := some "Failed to store order".data }⟩
  else
    let ev0 := [.putOrder storedOrder] ++
      sendEv env.connectionId
        { channel := some "orders".data, evType := some "ORDER_RECEIVED".data,
          status := some "Order received".data, message := none }
    if matched then
      let storedTrade : StoredTrade :=
        { symbol := order.symbol, tradeId := env.tradeId, orderId := env.orderId,
          owner := order.owner, price := jsToString order.price,
          qty := jsToString order.qty,
          side := if truthy order.side then order.side else .str "BUY".data,
          orderType := orderType, matchedAt := env.matchedNow, createdAt := env.now }
      if ¬env.storeTradeOk then
        ⟨500, ev0 ++ [.putTrade storedTrade] ++
          sendEv env.connectionId (orderErrorNotif "Failed to store trade".data)⟩
      else
        match calculateBalanceUpdates env.opposing order with
        | .error e =>
          ⟨400, ev0 ++ [.putTrade storedTrade] ++
            sendEv env.connectionId (orderErrorNotif e.message)⟩
        | .ok comp =>
          let ev1 := ev0 ++ [.putTrade storedTrade,
            .settleBatch (tradeHashOf env.tradeId) comp.balanceUpdates]
          match env.settleResult with
          | none =>
            ⟨502, ev1 ++
              sendEv env.connectionId
                (orderErrorNotif "Failed to settle trade on-chain".data)⟩
          | some receipt =>
            let ev2 := ev1 ++
              [.updateTrade env.tradeId receipt.txHash receipt.blockNumber,
               .sqsSend env.tradeId]
            if ¬env.queueOk then
              ⟨500, ev2 ++
                sendEv env.connectionId (orderErrorNotif "Failed to process trade".data)⟩
            else
              ⟨200, ev2 ++
                sendEv env.connectionId
                  { channel := some "orders".data,
                    evType := some "ORDER_MATCHED".data,
                    status := some "Order matched".data, message := none }⟩
    else
      ⟨200, ev0 ++
        sendEv env.connectionId
          { channel := some "orders".data, evType := some "ORDER_STORED".data,
            status := some "Order stored".data, message := none }⟩

/-- One invocation of the order handler.  `body` is the parsed request
body: `none` models a JSON parse failure. -/
def handler (env : Env) (body : Option Payload) : HandlerResult :=
  match body with
  | none =>
    ⟨400, sendEv env.connectionId (orderErrorNotif "Invalid order format".data)⟩
  | some order =>
    if validOrder order then
      match orderTypeOf order with
      | some orderType => proceed env order orderType
      | none => rejectInvalid env order
    else rejectInvalid env order

/-! ## Observation helpers over event lists -/

/-- All notifications posted during an invocation, in order. -/
def notifList (evs : List Event) : List Notif :=
  evs.filterMap fun e =>
    match e with
    | .notify n => some n
    | _ => none

/-- The notifications whose `status` field is `"ERROR"` (both the typed
`ORDER_ERROR` messages and the raw order-storage failure message). -/
def errorNotifs (evs : List Event) : List Notif :=
  evs.filterMap fun e =>
    match e with
    | .notify n => if n.status = some "ERROR".data then some n else none
    | _ => none

/-- Number of notifications carrying `type: "ORDER_ERROR"`. -/
def orderErrorTypedCount (evs : List Event) : Nat :=
  evs.countP fun e =>
    match e with
    | .notify n => n.evType = some "ORDER_ERROR".data
    | _ => false

/-- The `type` field of the last notification posted, if any. -/
def lastNotifType (evs : List Event) : Option (List Char) :=
  ((notifList evs).getLast?).bind Notif.evType

/-- The order records written to the order table, in order. -/
def putOrders (evs : List Event) : List StoredOrder :=
  evs.filterMap fun e =>
    match e with
    | .putOrder o => some o
    | _ => none

/-- The trade records written to the trades table, in order. -/
def putTrades (evs : List Event) : List StoredTrade :=
  evs.filterMap fun e =>
    match e with
    | .putTrade t => some t
    | _ => none

/-- Number of on-chain `settleBatch` submissions. -/
def settleCount (evs : List Event) : Nat :=
  evs.countP fun e =>
    match e with
    | .settleBatch _ _ => true
    | _ => false

/-- Number of trade-enrichment updates (attaching settlementTxHash /
settlementBlockNumber). -/
def updateCount (evs : List Event) : Nat :=
  evs.countP fun e =>
    match e with
    | .updateTrade _ _ _ => true
    | _ => false

/-- Number of SQS hand-off messages. -/
def sqsCount (evs : List Event) : Nat :=
  evs.countP fun e =>
    match e with
    | .sqsSend _ => true
    | _ => false

/-- Signed sum of the movements of one asset across a list of balance
updates (conservation is `assetSum aid us = 0` for every asset id). -/
def assetSum (aid : List Char) (us : List BalanceUpdate) : Int :=
  us.foldr (fun u acc => if u.assetId = aid then u.amount + acc else acc) 0

/-- The raw order-storage-failure notification: the one error notification
the handler sends through `sendToConnection` directly, with no channel and
no event type. -/
def storeOrderFailNotif : Notif :=
  { channel := none, evType := none, status := some "ERROR".data,
    message := some "Failed to store order".data }

/-- The five fixed error messages of the handler, in path order: JSON
parse failure, order-storage failure, trade-storage failure,
settlement-execution failure, queue failure.  (The validation and
settlement-computation paths carry the variable messages
`rejectionMessage order` and `DexError.message e`.) -/
def fixedErrorMessages : List (List Char) :=
  ["Invalid order format".data, "Failed to store order".data,
   "Failed to store trade".data, "Failed to settle trade on-chain".data,
   "Failed to process trade".data]

/-! ## Concrete fixtures -/

/-- Scenario A order: `{symbol: "BTC/USDT", price: 50000, qty: 0.01,
owner: "0xabc", type: "market"}`. -/
def exOrder : Payload :=
  { symbol := .str "BTC/USDT".data, price := .num 50000 0, qty := .num 1 2,
    owner := .str "0xabc".data, type := .str "market".data, side := .undef }

/-- The settlement computation produced for `exOrder` (buyer = owner,
seller = opposing wallet `"0xopp"`). -/
def exComp : SettlementComputation :=
  { balanceUpdates :=
      [ { account := .str "0xabc".data, assetId := "USDT".data, amount := -500000000 },
        { account := .str "0xabc".data, assetId := "BTC".data, amount := 1000000 },
        { account := .str "0xopp".data, assetId := "USDT".data, amount := 500000000 },
        { account := .str "0xopp".data, assetId := "BTC".data, amount := -1000000 } ],
    baseSymbol := "BTC".data, quoteSymbol := "USDT".data,
    baseAmount := 1000000, quoteAmount := 500000000 }

/-- An environment in which every external system succeeds. -/
def envAll : Env :=
  { connectionId := "c1".data, orderId := "oid-1".data, tradeId := "tid-1".data,
    now := "t0".data, matchedNow := "t1".data, opposing := "0xopp".data,
    coin := false, storeOrderOk := true, storeTradeOk := true,
    settleResult := some ⟨"0xhash".data, 7⟩, queueOk := true }

/-- `envAll` with the order-table write failing. -/
def envStoreFail : Env := { envAll with storeOrderOk := false }

/-- `envAll` with the on-chain settlement submission/confirmation failing. -/
def envSettleFail : Env := { envAll with settleResult := none }

/-- `exOrder` with the `qty` field absent. -/
def pNoQty : Payload := { exOrder with qty := .undef }

/-- A valid order whose price is a non-numeric string. -/
def pBadPrice : Payload := { exOrder with price := .str "abc".data, type := .str "limit".data }

/-- A valid order whose price is a negative numeric string. -/
def pNegPrice : Payload := { exOrder with price := .str "-5".data }

/-- A valid order whose price is the string "0" and whose qty is a
negative numeric string. -/
def pStrZero : Payload := { exOrder with price := .str "0".data, qty := .str "-3".data }

/-- A valid MARKET order carrying an unrecognized `side` value. -/
def pSideXYZ : Payload := { exOrder with side := .str "XYZ".data }

/-- `exOrder` with the `price` field equal to the number 0. -/
def pZeroPrice : Payload := { exOrder with price := .num 0 0 }

/-! ## Shared lemmas -/

theorem appearsIn_of_mem_joinSep (sep x : List Char) :
    ∀ parts : List (List Char), x ∈ parts → appearsIn x (joinSep sep parts) := by
  intro parts
  induction parts with
  | nil => intro h; cases h
  | cons hd tl ih =>
    intro hmem
    rcases List.mem_cons.mp hmem with heq | htl
    · subst heq
      cases tl with
      | nil => exact ⟨[], [], by simp [joinSep]⟩
      | cons y ys => exact ⟨[], sep ++ joinSep sep (y :: ys), by simp [joinSep]⟩
    · have ⟨l, r, hlr⟩ := ih htl
      cases tl with
      | nil => cases htl
      | cons y ys =>
        exact ⟨hd ++ sep ++ l, r, by simp [joinSep, hlr]⟩

theorem appearsIn_append_left (pre x m : List Char) :
    appearsIn x m → appearsIn x (pre ++ m) := by
  rintro ⟨l, r, rfl⟩
  exact ⟨pre ++ l, r, by simp⟩

theorem appearsIn_rejectionMessage (order : Payload) (f : List Char)
    (hf : f ∈ missingFields order) : appearsIn f (rejectionMessage order) :=
  appearsIn_append_left _ _ _ (appearsIn_of_mem_joinSep _ _ _ hf)

theorem handler_reject (env : Env) (order : Payload)
    (h : validOrder order = false) :
    handler env (some order) = rejectInvalid env order := by
  simp [handler, h]

theorem handler_proceed (env : Env) (order : Payload) (t : List Char)
    (hv : validOrder order = true) (ht : orderTypeOf order = some t) :
    handler env (some order) = proceed env order t := by
  simp [handler, hv, ht]

theorem validOrder_typeField (order : Payload) (hv : validOrder order = true) :
    ∃ s, order.type = .str s ∧
      (toLowerList s = "limit".data ∨ toLowerList s = "market".data) := by
  have ht : typeFieldOk order = true := by
    simp [validOrder] at hv; tauto
  unfold typeFieldOk orderTypeOf at ht
  cases horder : order.type with
  | str s =>
    refine ⟨s, rfl, ?_⟩
    rw [horder] at ht
    simpa using ht
  | undef => rw [horder] at ht; simp at ht
  | null => rw [horder] at ht; simp at ht
  | bool b => rw [horder] at ht; simp at ht
  | num m e => rw [horder] at ht; simp at ht

theorem dexError_message_head (e : DexError) :
    e.message.head? = some 'U' ∨ e.message.head? = some 'i' ∨
      e.message.head? = some 'v' := by
  cases e with
  | malformedPair p => exact Or.inl rfl
  | unsupportedAsset s => exact Or.inl rfl
  | numericFault v => exact Or.inr (Or.inl rfl)
  | notAString => exact Or.inr (Or.inr rfl)

theorem putOrders_append (xs ys : List Event) :
    putOrders (xs ++ ys) = putOrders xs ++ putOrders ys :=
  List.filterMap_append xs ys _

theorem putTrades_append (xs ys : List Event) :
    putTrades (xs ++ ys) = putTrades xs ++ putTrades ys :=
  List.filterMap_append xs ys _

theorem putOrders_sendEv (c : List Char) (n : Notif) : putOrders (sendEv c n) = [] := by
  unfold sendEv; split <;> rfl

theorem putTrades_sendEv (c : List Char) (n : Notif) : putTrades (sendEv c n) = [] := by
  unfold sendEv; split <;> rfl

theorem putOrders_nil : putOrders [] = [] := rfl

theorem putTrades_nil : putTrades [] = [] := rfl

theorem putOrders_cons_notify (n : Notif) (xs : List Event) :
    putOrders (.notify n :: xs) = putOrders xs := rfl

theorem putOrders_cons_putOrder (o : StoredOrder) (xs : List Event) :
    putOrders (.putOrder o :: xs) = o :: putOrders xs := rfl

theorem putOrders_cons_putTrade (t : StoredTrade) (xs : List Event) :
    putOrders (.putTrade t :: xs) = putOrders xs := rfl

theorem putOrders_cons_settle (h : List Char) (us : List BalanceUpdate) (xs : List Event) :
    putOrders (.settleBatch h us :: xs) = putOrders xs := rfl

theorem putOrders_cons_update (a b : List Char) (k : Nat) (xs : List Event) :
    putOrders (.updateTrade a b k :: xs) = putOrders xs := rfl

theorem putOrders_cons_sqs (a : List Char) (xs : List Event) :
    putOrders (.sqsSend a :: xs) = putOrders xs := rfl

theorem putTrades_cons_notify (n : Notif) (xs : List Event) :
    putTrades (.notify n :: xs) = putTrades xs := rfl

theorem putTrades_cons_putOrder (o : StoredOrder) (xs : List Event) :
    putTrades (.putOrder o :: xs) = putTrades xs := rfl

theorem putTrades_cons_putTrade (t : StoredTrade) (xs : List Event) :
    putTrades (.putTrade t :: xs) = t :: putTrades xs := rfl

theorem putTrades_cons_settle (h : List Char) (us : List BalanceUpdate) (xs : List Event) :
    putTrades (.settleBatch h us :: xs) = putTrades xs := rfl

theorem putTrades_cons_update (a b : List Char) (k : Nat) (xs : List Event) :
    putTrades (.updateTrade a b k :: xs) = putTrades xs := rfl

theorem putTrades_cons_sqs (a : List Char) (xs : List Event) :
    putTrades (.sqsSend a :: xs) = putTrades xs := rfl

theorem errorNotifs_nil : errorNotifs [] = [] := rfl

theorem errorNotifs_append (xs ys : List Event) :
    errorNotifs (xs ++ ys) = errorNotifs xs ++ errorNotifs ys :=
  List.filterMap_append xs ys _

theorem errorNotifs_sendEv (c : List Char) (n : Notif) :
    errorNotifs (sendEv c n) =
      if c = [] then [] else if n.status = some "ERROR".data then [n] else [] := by
  unfold sendEv errorNotifs
  split_ifs <;> simp_all [List.filterMap]

theorem errorNotifs_cons_notify (n : Notif) (xs : List Event) :
    errorNotifs (.notify n :: xs) =
      if n.status = some "ERROR".data then n :: errorNotifs xs else errorNotifs xs := by
  unfold errorNotifs
  rw [List.filterMap_cons]
  split_ifs with h <;> simp [h]

theorem errorNotifs_cons_putOrder (o : StoredOrder) (xs : List Event) :
    errorNotifs (.putOrder o :: xs) = errorNotifs xs := rfl

theorem errorNotifs_cons_putTrade (t : StoredTrade) (xs : List Event) :
    errorNotifs (.putTrade t :: xs) = errorNotifs xs := rfl

theorem errorNotifs_cons_settle (h : List Char) (us : List BalanceUpdate) (xs : List Event) :
    errorNotifs (.settleBatch h us :: xs) = errorNotifs xs := rfl

theorem errorNotifs_cons_update (a b : List Char) (k : Nat) (xs : List Event) :
    errorNotifs (.updateTrade a b k :: xs) = errorNotifs xs := rfl

theorem errorNotifs_cons_sqs (a : List Char) (xs : List Event) :
    errorNotifs (.sqsSend a :: xs) = errorNotifs xs := rfl

set_option maxHeartbeats 2000000 in
theorem proceed_errorNotifs (env : Env) (order : Payload) (t : List Char)
    (hc : ¬env.connectionId = []) :
    (proceed env order t).statusCode ≠ 200 →
    ∃ n : Notif,
      errorNotifs (proceed env order t).events = [n] ∧
      n.status = some "ERROR".data ∧
      ((n.evType = some "ORDER_ERROR".data ∧ n.channel = some "orders".data) ∨
        (n = storeOrderFailNotif ∧ env.storeOrderOk = false)) := by
  unfold proceed
  by_cases hso : env.storeOrderOk <;>
    by_cases hm : matchDecision t env.coin <;>
      by_cases hst : env.storeTradeOk <;>
        cases hcalc : calculateBalanceUpdates env.opposing order <;>
          cases hsr : env.settleResult <;>
            by_cases hq : env.queueOk <;>
    simp [hso, hm, hst, hcalc, hsr, hq, hc, errorNotifs_append, errorNotifs_sendEv,
      errorNotifs_nil, errorNotifs_cons_notify, errorNotifs_cons_putOrder,
      errorNotifs_cons_putTrade, errorNotifs_cons_settle, errorNotifs_cons_update,
      errorNotifs_cons_sqs, orderErrorNotif, storeOrderFailNotif]

/-- C1: for every order whose symbol parses to a supported (base, quote)
pair and whose price and quantity scale without error (i.e. the settlement
calculator returns `ok`), exactly four BalanceUpdates are emitted, in the
order buyer-quote, buyer-base, seller-quote, seller-base, and for every
asset id the signed amounts across buyer and seller sum to zero
(conservation of value). -/
theorem calculateBalanceUpdates_conservation (opposing : List Char) (order : Payload)
    (comp : SettlementComputation)
    (h : calculateBalanceUpdates opposing order = .ok comp) :
    comp.balanceUpdates.length = 4 ∧
    comp.balanceUpdates.map BalanceUpdate.assetId =
      [assetIdOf comp.quoteSymbol, assetIdOf comp.baseSymbol,
       assetIdOf comp.quoteSymbol, assetIdOf comp.baseSymbol] ∧
    (∃ buyer seller : JsVal,
      comp.balanceUpdates.map BalanceUpdate.account = [buyer, buyer, seller, seller]) ∧
    ∀ aid, assetSum aid comp.balanceUpdates = 0 := by
  cases hsym : order.symbol with
  | str sym =>
    cases hp : parseTradingPair sym with
    | error e =>
      simp only [calculateBalanceUpdates, hsym, hp] at h
      exact absurd h (by simp)
    | ok bq =>
      obtain ⟨b, q⟩ := bq
      cases hq : toBigInt order.qty ((lookupDecimals b).getD 0) with
      | error e =>
        simp only [calculateBalanceUpdates, hsym, hp, hq] at h
        exact absurd h (by simp)
      | ok B =>
        cases hpr : toBigInt order.price ((lookupDecimals q).getD 0) with
        | error e =>
          simp only [calculateBalanceUpdates, hsym, hp, hq, hpr] at h
          exact absurd h (by simp)
        | ok P =>
          simp only [calculateBalanceUpdates, hsym, hp, hq, hpr, Except.ok.injEq] at h
          subst h
          refine ⟨rfl, rfl, ⟨_, _, rfl⟩, fun aid => ?_⟩
          simp only [assetSum, List.foldr]
          split_ifs <;> ring
  | undef => simp [calculateBalanceUpdates, hsym] at h
  | null => simp [calculateBalanceUpdates, hsym] at h
  | bool bb => simp [calculateBalanceUpdates, hsym] at h
  | num m e => simp [calculateBalanceUpdates, hsym] at h

/-- C1 witness: the conservation theorem instantiated at the concrete
scenario-A order BTC/USDT, price 50000, qty 0.01. -/
theorem calculateBalanceUpdates_conservation_witness :
    calculateBalanceUpdates "0xopp".data exOrder = .ok exComp ∧
    exComp.balanceUpdates.length = 4 ∧
    assetSum "USDT".data exComp.balanceUpdates = 0 ∧
    assetSum "BTC".data exComp.balanceUpdates = 0 := by
  have h : calculateBalanceUpdates "0xopp".data exOrder = .ok exComp := by decide
  have hc := calculateBalanceUpdates_conservation "0xopp".data exOrder exComp h
  exact ⟨h, hc.1, hc.2.2.2 _, hc.2.2.2 _⟩

/-- C2: the settlement calculator computes the quote-side amount as the
truncating integer quotient (baseScaledAmount x priceScaledAmount) /
10^baseDecimals, where the scaled amounts are the quantity and price scaled
to the base and quote asset's declared decimals; in particular for
{symbol: "BTC/USDT", price: 50000, qty: 0.01} the quote delta is +-500
scaled to USDT's 6 decimals (500000000) and the base delta is +-0.01
scaled to BTC's 8 decimals (1000000). -/
theorem quoteAmount_formula :
    (∀ (opposing : List Char) (order : Payload) (sym b q : List Char) (B P : Int),
      order.symbol = .str sym →
      parseTradingPair sym = .ok (b, q) →
      toBigInt order.qty ((lookupDecimals b).getD 0) = .ok B →
      toBigInt order.price ((lookupDecimals q).getD 0) = .ok P →
      (calculateBalanceUpdates opposing order).map SettlementComputation.baseAmount =
        .ok B ∧
      (calculateBalanceUpdates opposing order).map SettlementComputation.quoteAmount =
        .ok (Int.tdiv (B * P) (10 ^ ((lookupDecimals b).getD 0)))) ∧
    lookupDecimals "BTC".data = some 8 ∧
    lookupDecimals "USDT".data = some 6 ∧
    calculateBalanceUpdates "0xopp".data exOrder = .ok exComp ∧
    exComp.baseAmount = 1000000 ∧
    exComp.quoteAmount = 500000000 ∧
    exComp.balanceUpdates.map BalanceUpdate.amount =
      [-500000000, 1000000, 500000000, -1000000] := by
  refine ⟨?_, by decide, by decide, by decide, rfl, rfl, rfl⟩
  intro opposing order sym b q B P hsym hp hq hpr
  constructor <;>
    simp only [calculateBalanceUpdates, hsym, hp, hq, hpr, Except.map]

/-- C2 witness: the quote-amount formula instantiated at the concrete
BTC/USDT order. -/
theorem quoteAmount_formula_witness :
    (calculateBalanceUpdates "0xopp".data exOrder).map SettlementComputation.baseAmount =
      .ok 1000000 ∧
    (calculateBalanceUpdates "0xopp".data exOrder).map SettlementComputation.quoteAmount =
      .ok (Int.tdiv (1000000 * 50000000000) (10 ^ 8)) := by
  have h := quoteAmount_formula.1 "0xopp".data exOrder "BTC/USDT".data "BTC".data "USDT".data
    1000000 50000000000 rfl (by decide) (by decide) (by decide)
  exact ⟨h.1, h.2⟩

/-- C3: for every matched order whose on-chain settlement submission or
confirmation fails, the invocation terminates (HTTP 502) with a
settlement-specific ORDER_ERROR notification as final notification, whose
message differs from both storage-failure messages; the already persisted
Order record has status FILLED and is never rewritten, the Trade record is
persisted and no settlement-enrichment update is issued, no SQS hand-off
occurs, and exactly one settlement submission is attempted (no retry). -/
theorem settlement_failure_spec :
    ∀ (env : Env) (order : Payload) (orderType : List Char) (comp : SettlementComputation),
      env.connectionId ≠ [] →
      validOrder order = true →
      orderTypeOf order = some orderType →
      matchDecision orderType env.coin = true →
      env.storeOrderOk = true →
      env.storeTradeOk = true →
      calculateBalanceUpdates env.opposing order = .ok comp →
      env.settleResult = none →
      (handler env (some order)).statusCode = 502 ∧
      (putOrders (handler env (some order)).events).map StoredOrder.status =
        ["FILLED".data] ∧
      (putTrades (handler env (some order)).events).length = 1 ∧
      settleCount (handler env (some order)).events = 1 ∧
      updateCount (handler env (some order)).events = 0 ∧
      sqsCount (handler env (some order)).events = 0 ∧
      (notifList (handler env (some order)).events).getLast? =
        some (orderErrorNotif "Failed to settle trade on-chain".data) ∧
      orderErrorNotif "Failed to settle trade on-chain".data ≠
        { channel := none, evType := none, status := some "ERROR".data,
          message := some "Failed to store order".data } ∧
      orderErrorNotif "Failed to settle trade on-chain".data ≠
        orderErrorNotif "Failed to store trade".data := by
  intro env order orderType comp hc hv ht hm hso hst hcalc hsr
  have hrun : proceed env order orderType = ⟨502,
      [Event.putOrder
        { symbol := order.symbol, orderId := env.orderId, owner := order.owner,
          price := jsToString order.price, qty := jsToString order.qty,
          side := if truthy order.side then order.side else .str "BUY".data,
          orderType := orderType, status := "FILLED".data,
          createdAt := env.now, updatedAt := env.matchedNow },
       Event.notify
        { channel := some "orders".data, evType := some "ORDER_RECEIVED".data,
          status := some "Order received".data, message := none },
       Event.putTrade
        { symbol := order.symbol, tradeId := env.tradeId, orderId := env.orderId,
          owner := order.owner, price := jsToString order.price,
          qty := jsToString order.qty,
          side := if truthy order.side then order.side else .str "BUY".data,
          orderType := orderType, matchedAt := env.matchedNow, createdAt := env.now },
       Event.settleBatch (tradeHashOf env.tradeId) comp.balanceUpdates,
       Event.notify (orderErrorNotif "Failed to settle trade on-chain".data)]⟩ := by
    simp [proceed, hm, hso, hst, hcalc, hsr, sendEv, hc]
  rw [handler_proceed env order orderType hv ht, hrun]
  refine ⟨rfl, ?_, ?_, ?_, ?_, ?_, ?_, by decide, by decide⟩ <;>
    simp [putOrders, putTrades, settleCount, updateCount, sqsCount, notifList,
      List.countP_cons, List.countP_nil]

/-- C3 witness: the settlement-failure theorem instantiated at the
scenario-B environment (settlement confirmation fails) and the concrete
BTC/USDT market order. -/
theorem settlement_failure_spec_witness :
    (handler envSettleFail (some exOrder)).statusCode = 502 ∧
    (putOrders (handler envSettleFail (some exOrder)).events).map StoredOrder.status =
      ["FILLED".data] ∧
    (putTrades (handler envSettleFail (some exOrder)).events).length = 1 ∧
    settleCount (handler envSettleFail (some exOrder)).events = 1 ∧
    updateCount (handler envSettleFail (some exOrder)).events = 0 ∧
    sqsCount (handler envSettleFail (some exOrder)).events = 0 ∧
    (notifList (handler envSettleFail (some exOrder)).events).getLast? =
      some (orderErrorNotif "Failed to settle trade on-chain".data) := by
  have h := settlement_failure_spec envSettleFail exOrder "market".data exComp
    (by decide) (by decide) (by decide) (by decide) (by decide) (by decide)
    (by decide) (by decide)
  exact ⟨h.1, h.2.1, h.2.2.1, h.2.2.2.1, h.2.2.2.2.1, h.2.2.2.2.2.1, h.2.2.2.2.2.2.1⟩

/-- C4 (amended): every terminal error path of one invocation emits
exactly one user-visible error notification carrying that path's specific
message: JSON parse failure sends ORDER_ERROR "Invalid order format"
(HTTP 400); validation failure sends ORDER_ERROR with the composite
rejection message (400); order-storage failure sends the raw, untyped,
channel-less `storeOrderFailNotif` with message "Failed to store order"
(500); trade-storage failure sends ORDER_ERROR "Failed to store trade"
(500); settlement-computation failure sends ORDER_ERROR with the thrown
error's message (400); settlement-execution failure sends ORDER_ERROR
"Failed to settle trade on-chain" (502); queue failure sends ORDER_ERROR
"Failed to process trade" (500).  Completeness: every non-200 run emits
exactly one error notification, and it is ORDER_ERROR-typed on the orders
channel unless the order-storage write failed, in which case it is exactly
`storeOrderFailNotif`.  The messages distinguish the paths: the five fixed
messages are pairwise distinct, and the two variable families
(`rejectionMessage` with head 'M', `DexError.message` with heads
'U'/'i'/'v') differ from all fixed messages and from each other.  (The
claim as originally stated, requiring an ORDER_ERROR-typed event on every
error path, is refuted by `terminal_error_notification_counterexample`.) -/
theorem terminal_error_notification_spec :
    (∀ env : Env, env.connectionId ≠ [] →
      handler env none =
        ⟨400, [.notify (orderErrorNotif "Invalid order format".data)]⟩) ∧
    (∀ (env : Env) (order : Payload), env.connectionId ≠ [] →
      validOrder order = false →
      handler env (some order) =
        ⟨400, [.notify (orderErrorNotif (rejectionMessage order))]⟩) ∧
    (∀ (env : Env) (order : Payload) (t : List Char), env.connectionId ≠ [] →
      validOrder order = true → orderTypeOf order = some t →
      env.storeOrderOk = false →
      (handler env (some order)).statusCode = 500 ∧
      errorNotifs (handler env (some order)).events = [storeOrderFailNotif]) ∧
    (∀ (env : Env) (order : Payload) (t : List Char), env.connectionId ≠ [] →
      validOrder order = true → orderTypeOf order = some t →
      matchDecision t env.coin = true →
      env.storeOrderOk = true → env.storeTradeOk = false →
      (handler env (some order)).statusCode = 500 ∧
      errorNotifs (handler env (some order)).events =
        [orderErrorNotif "Failed to store trade".data]) ∧
    (∀ (env : Env) (order : Payload) (t : List Char) (e : DexError),
      env.connectionId ≠ [] →
      validOrder order = true → orderTypeOf order = some t →
      matchDecision t env.coin = true →
      env.storeOrderOk = true → env.storeTradeOk = true →
      calculateBalanceUpdates env.opposing order = .error e →
      (handler env (some order)).statusCode = 400 ∧
      errorNotifs (handler env (some order)).events =
        [orderErrorNotif e.message]) ∧
    (∀ (env : Env) (order : Payload) (t : List Char) (comp : SettlementComputation),
      env.connectionId ≠ [] →
      validOrder order = true → orderTypeOf order = some t →
      matchDecision t env.coin = true →
      env.storeOrderOk = true → env.storeTradeOk = true →
      calculateBalanceUpdates env.opposing order = .ok comp →
      env.settleResult = none →
      (handler env (some order)).statusCode = 502 ∧
      errorNotifs (handler env (some order)).events =
        [orderErrorNotif "Failed to settle trade on-chain".data]) ∧
    (∀ (env : Env) (order : Payload) (t : List Char) (comp : SettlementComputation)
      (receipt : Receipt),
      env.connectionId ≠ [] →
      validOrder order = true → orderTypeOf order = some t →
      matchDecision t env.coin = true →
      env.storeOrderOk = true → env.storeTradeOk = true →
      calculateBalanceUpdates env.opposing order = .ok comp →
      env.settleResult = some receipt →
      env.queueOk = false →
      (handler env (some order)).statusCode = 500 ∧
      errorNotifs (handler env (some order)).events =
        [orderErrorNotif "Failed to process trade".data]) ∧
    (∀ (env : Env) (body : Option Payload), env.connectionId ≠ [] →
      (handler env body).statusCode ≠ 200 →
      ∃ n : Notif,
        errorNotifs (handler env body).events = [n] ∧
        n.status = some "ERROR".data ∧
        ((n.evType = some "ORDER_ERROR".data ∧ n.channel = some "orders".data) ∨
          (n = storeOrderFailNotif ∧ env.storeOrderOk = false))) ∧
    fixedErrorMessages.Pairwise (fun a b => a ≠ b) ∧
    (∀ order : Payload, ∀ m ∈ fixedErrorMessages, rejectionMessage order ≠ m) ∧
    (∀ e : DexError, ∀ m ∈ fixedErrorMessages, e.message ≠ m) ∧
    (∀ (e : DexError) (order : Payload), e.message ≠ rejectionMessage order) := by
  refine ⟨?_, ?_, ?_, ?_, ?_, ?_, ?_, ?_, ?_, ?_, ?_, ?_⟩
  · intro env hc
    simp [handler, sendEv, hc]
  · intro env order hc hv
    rw [handler_reject env order hv]
    simp [rejectInvalid, sendEv, hc]
  · intro env order t hc hv ht hso
    rw [handler_proceed env order t hv ht]
    constructor <;>
      simp [proceed, hso, hc, storeOrderFailNotif, errorNotifs_append,
        errorNotifs_sendEv, errorNotifs_nil, errorNotifs_cons_notify,
        errorNotifs_cons_putOrder, errorNotifs_cons_putTrade,
        errorNotifs_cons_settle, errorNotifs_cons_update, errorNotifs_cons_sqs]
  · intro env order t hc hv ht hm hso hst
    rw [handler_proceed env order t hv ht]
    constructor <;>
      simp [proceed, hm, hso, hst, hc, errorNotifs_append, errorNotifs_sendEv,
        errorNotifs_nil, errorNotifs_cons_notify, errorNotifs_cons_putOrder,
        errorNotifs_cons_putTrade, errorNotifs_cons_settle, errorNotifs_cons_update,
        errorNotifs_cons_sqs, orderErrorNotif]
  · intro env order t e hc hv ht hm hso hst hcalc
    rw [handler_proceed env order t hv ht]
    constructor <;>
      simp [proceed, hm, hso, hst, hcalc, hc, errorNotifs_append, errorNotifs_sendEv,
        errorNotifs_nil, errorNotifs_cons_notify, errorNotifs_cons_putOrder,
        errorNotifs_cons_putTrade, errorNotifs_cons_settle, errorNotifs_cons_update,
        errorNotifs_cons_sqs, orderErrorNotif]
  · intro env order t comp hc hv ht hm hso hst hcalc hsr
    rw [handler_proceed env order t hv ht]
    constructor <;>
      simp [proceed, hm, hso, hst, hcalc, hsr, hc, errorNotifs_append,
        errorNotifs_sendEv, errorNotifs_nil, errorNotifs_cons_notify,
        errorNotifs_cons_putOrder, errorNotifs_cons_putTrade,
        errorNotifs_cons_settle, errorNotifs_cons_update, errorNotifs_cons_sqs,
        orderErrorNotif]
  · intro env order t comp receipt hc hv ht hm hso hst hcalc hsr hq
    rw [handler_proceed env order t hv ht]
    constructor <;>
      simp [proceed, hm, hso, hst, hcalc, hsr, hq, hc, errorNotifs_append,
        errorNotifs_sendEv, errorNotifs_nil, errorNotifs_cons_notify,
        errorNotifs_cons_putOrder, errorNotifs_cons_putTrade,
        errorNotifs_cons_settle, errorNotifs_cons_update, errorNotifs_cons_sqs,
        orderErrorNotif]
  · intro env body hc hcode
    rcases body with _ | order
    · refine ⟨orderErrorNotif "Invalid order format".data, ?_, rfl, Or.inl ⟨rfl, rfl⟩⟩
      simp [handler, errorNotifs_sendEv, hc, orderErrorNotif]
    · by_cases hv : validOrder order
      · cases ht : orderTypeOf order with
        | some t =>
          rw [handler_proceed env order t hv ht] at hcode ⊢
          exact proceed_errorNotifs env order t hc hcode
        | none =>
          have hrej : handler env (some order) = rejectInvalid env order := by
            simp [handler, hv, ht]
          rw [hrej]
          refine ⟨orderErrorNotif (rejectionMessage order), ?_, rfl, Or.inl ⟨rfl, rfl⟩⟩
          simp [rejectInvalid, errorNotifs_sendEv, hc, orderErrorNotif]
      · have hv' : validOrder order = false := by simpa using hv
        rw [handler_reject env order hv']
        refine ⟨orderErrorNotif (rejectionMessage order), ?_, rfl, Or.inl ⟨rfl, rfl⟩⟩
        simp [rejectInvalid, errorNotifs_sendEv, hc, orderErrorNotif]
  · decide
  · intro order m hm h
    have hh := congrArg List.head? h
    have hM : (rejectionMessage order).head? = some 'M' := rfl
    rw [hM] at hh
    simp only [fixedErrorMessages, List.mem_cons, List.not_mem_nil, or_false] at hm
    rcases hm with rfl | rfl | rfl | rfl | rfl <;> exact absurd hh (by decide)
  · intro e m hm h
    have hh := congrArg List.head? h
    simp only [fixedErrorMessages, List.mem_cons, List.not_mem_nil, or_false] at hm
    rcases dexError_message_head e with h1 | h1 | h1 <;>
      rw [h1] at hh <;>
        rcases hm with rfl | rfl | rfl | rfl | rfl <;> exact absurd hh (by decide)
  · intro e order h
    have hh := congrArg List.head? h
    have hM : (rejectionMessage order).head? = some 'M' := rfl
    rw [hM] at hh
    rcases dexError_message_head e with h1 | h1 | h1 <;>
      rw [h1] at hh <;> exact absurd hh (by decide)

/-- C4 witness: the per-path theorem instantiated at the concrete
order-storage-failure run (raw untyped notification) and the concrete
settlement-execution-failure run (typed ORDER_ERROR notification). -/
theorem terminal_error_notification_spec_witness :
    (handler envStoreFail (some exOrder)).statusCode = 500 ∧
    errorNotifs (handler envStoreFail (some exOrder)).events = [storeOrderFailNotif] ∧
    (handler envSettleFail (some exOrder)).statusCode = 502 ∧
    errorNotifs (handler envSettleFail (some exOrder)).events =
      [orderErrorNotif "Failed to settle trade on-chain".data] := by
  have h3 := terminal_error_notification_spec.2.2.1 envStoreFail exOrder "market".data
    (by decide) (by decide) (by decide) (by decide)
  have h6 := terminal_error_notification_spec.2.2.2.2.2.1 envSettleFail exOrder
    "market".data exComp (by decide) (by decide) (by decide) (by decide) (by decide)
    (by decide) (by decide) (by decide)
  exact ⟨h3.1, h3.2, h6.1, h6.2⟩

/-- C4 counterexample: when the order-table write fails, the invocation is
a terminal error (HTTP 500) and emits exactly one error notification, but
that notification has no `type: "ORDER_ERROR"` field -- the count of
ORDER_ERROR-typed notifications is zero, refuting the claim that every
terminal error path emits exactly one ORDER_ERROR notification event. -/
theorem terminal_error_notification_counterexample :
    (handler envStoreFail (some exOrder)).statusCode = 500 ∧
    orderErrorTypedCount (handler envStoreFail (some exOrder)).events = 0 ∧
    errorNotifs (handler envStoreFail (some exOrder)).events =
      [{ channel := none, evType := none, status := some "ERROR".data,
         message := some "Failed to store order".data }] :=
  ⟨by decide, by decide, by decide⟩

/-- C5: every payload failing required-field validation terminates the
invocation with a single composite ORDER_ERROR notification whose message
contains every missing/invalid field name (not just the first), and no
order or trade storage write is issued; in particular a payload with a
missing (falsy) qty is rejected with "qty" reported. -/
theorem validation_rejection_spec :
    (∀ (env : Env) (order : Payload),
      env.connectionId ≠ [] →
      validOrder order = false →
      handler env (some order) =
        ⟨400, [.notify (orderErrorNotif (rejectionMessage order))]⟩ ∧
      (∀ f ∈ missingFields order, appearsIn f (rejectionMessage order)) ∧
      putOrders (handler env (some order)).events = [] ∧
      putTrades (handler env (some order)).events = []) ∧
    (∀ order : Payload, truthy order.qty = false →
      validOrder order = false ∧ "qty".data ∈ missingFields order) := by
  constructor
  · intro env order hc hv
    have hh : handler env (some order) = rejectInvalid env order := handler_reject env order hv
    have hr : rejectInvalid env order =
        ⟨400, [.notify (orderErrorNotif (rejectionMessage order))]⟩ := by
      simp [rejectInvalid, sendEv, hc]
    refine ⟨hh.trans hr, fun f hf => appearsIn_rejectionMessage order f hf, ?_, ?_⟩ <;>
      rw [hh, hr] <;> simp [putOrders, putTrades]
  · intro order hq
    constructor
    · simp [validOrder, hq]
    · simp [missingFields, hq]

/-- C5 witness: the rejection theorem instantiated at the scenario-C order
with `qty` absent: the message contains "qty" and no storage write
occurs. -/
theorem validation_rejection_spec_witness :
    handler envAll (some pNoQty) =
      ⟨400, [.notify (orderErrorNotif (rejectionMessage pNoQty))]⟩ ∧
    appearsIn "qty".data (rejectionMessage pNoQty) ∧
    putOrders (handler envAll (some pNoQty)).events = [] ∧
    putTrades (handler envAll (some pNoQty)).events = [] := by
  have h := validation_rejection_spec.1 envAll pNoQty (by decide) (by decide)
  have hm := (validation_rejection_spec.2 pNoQty (by decide)).2
  exact ⟨h.1, h.2.1 _ hm, h.2.2.1, h.2.2.2⟩

/-- C6 counterexample: the claim that validation fails for every payload
whose price or quantity does not parse to a positive decimal is false: the
non-numeric price string "abc" does not parse as a decimal at all, yet
validation succeeds, and the negative numeric price string "-5" parses to a
negative (non-positive) value, yet validation succeeds. -/
theorem validation_no_numeric_check_counterexample :
    validOrder pBadPrice = true ∧ parseDecimal "abc".data = none ∧
    validOrder pNegPrice = true ∧ parseUnits "-5".data 6 = some (-5000000) :=
  ⟨by decide, by decide, by decide, by decide⟩

/-- C6 (amended): intake validation accepts a payload iff symbol, price,
qty and owner are truthy and the type field is a string that lower-cases to
exactly "limit" or "market"; price and quantity are only checked for
truthiness, not parsed -- non-numeric strings and negative numeric strings
pass validation (the positive-decimal part of the original claim is refuted
by `validation_no_numeric_check_counterexample`).  Rejection goes through
`rejectInvalid` and acceptance through `proceed`. -/
theorem validation_truthiness_spec :
    (∀ order : Payload, validOrder order = true ↔
      (truthy order.symbol = true ∧ truthy order.price = true ∧ truthy order.qty = true ∧
       truthy order.owner = true ∧
       ∃ s, order.type = .str s ∧
         (toLowerList s = "limit".data ∨ toLowerList s = "market".data))) ∧
    (∀ (env : Env) (order : Payload), validOrder order = false →
      handler env (some order) = rejectInvalid env order) ∧
    (∀ (env : Env) (order : Payload) (t : List Char),
      validOrder order = true → orderTypeOf order = some t →
      handler env (some order) = proceed env order t) := by
  refine ⟨?_, handler_reject, handler_proceed⟩
  intro order
  constructor
  · intro hv
    obtain ⟨s, hs, hlm⟩ := validOrder_typeField order hv
    simp only [validOrder, Bool.and_eq_true] at hv
    exact ⟨hv.1.1.1.1, hv.1.1.1.2, hv.1.1.2, hv.1.2, s, hs, hlm⟩
  · rintro ⟨h1, h2, h3, h4, s, hs, hlm⟩
    rcases hlm with h | h <;>
      simp [validOrder, typeFieldOk, orderTypeOf, h1, h2, h3, h4, hs, h]

/-- C6 witness: the amended validation theorem instantiated at the
non-numeric-price order (accepted) and the missing-qty order (rejected). -/
theorem validation_truthiness_spec_witness :
    handler envAll (some pBadPrice) = proceed envAll pBadPrice "limit".data ∧
    handler envAll (some pNoQty) = rejectInvalid envAll pNoQty := by
  constructor
  · exact validation_truthiness_spec.2.2 envAll pBadPrice "limit".data (by decide) (by decide)
  · exact validation_truthiness_spec.2.1 envAll pNoQty (by decide)

/-- C7 counterexample: an order with the unrecognized side "XYZ" passes
validation and the settlement calculator treats the owner as the buyer, but
the persisted Order record carries side "XYZ" verbatim, not "BUY" --
refuting the claim that the persisted records carry side BUY for an
unrecognized side. -/
theorem side_default_counterexample :
    validOrder pSideXYZ = true ∧
    (putOrders (handler envAll (some pSideXYZ)).events).map StoredOrder.side =
      [JsVal.str "XYZ".data] ∧
    JsVal.str "XYZ".data ≠ JsVal.str "BUY".data ∧
    (calculateBalanceUpdates "0xopp".data pSideXYZ).map
      (fun c => c.balanceUpdates.map BalanceUpdate.account) =
      .ok [.str "0xabc".data, .str "0xabc".data, .str "0xopp".data, .str "0xopp".data] :=
  ⟨by decide, by decide, by decide, by decide⟩

set_option maxHeartbeats 1000000 in
/-- C7 (amended): the side field never affects validation; an absent or
falsy side yields effective side "BUY"; the persisted Order/Trade records
carry `order.side || "BUY"` -- i.e. BUY only when side is falsy, and the
given value verbatim otherwise; and the settlement calculator treats the
order's owner as the buyer whenever the effective (defaulted, stringified,
upper-cased) side differs from "SELL". -/
theorem side_default_spec :
    (∀ (order : Payload) (v w : JsVal),
      validOrder { order with side := v } = validOrder { order with side := w }) ∧
    (∀ order : Payload, truthy order.side = false → effectiveSide order = "BUY".data) ∧
    (∀ (env : Env) (order : Payload) (t : List Char),
      validOrder order = true → orderTypeOf order = some t →
      (putOrders (handler env (some order)).events).map StoredOrder.side =
        [if truthy order.side then order.side else .str "BUY".data] ∧
      (putTrades (handler env (some order)).events).map StoredTrade.side =
        List.replicate (putTrades (handler env (some order)).events).length
          (if truthy order.side then order.side else .str "BUY".data)) ∧
    (∀ (opposing : List Char) (order : Payload) (comp : SettlementComputation),
      calculateBalanceUpdates opposing order = .ok comp →
      effectiveSide order ≠ "SELL".data →
      (comp.balanceUpdates.map BalanceUpdate.account).take 2 =
        [order.owner, order.owner]) := by
  refine ⟨fun order v w => rfl, ?_, ?_, ?_⟩
  · intro order h
    simp [effectiveSide, h, jsToString]
    decide
  · intro env order t hv ht
    rw [handler_proceed env order t hv ht]
    unfold proceed
    by_cases hso : env.storeOrderOk <;>
      by_cases hm : matchDecision t env.coin <;>
        by_cases hst : env.storeTradeOk <;>
          cases hcalc : calculateBalanceUpdates env.opposing order <;>
            cases hsr : env.settleResult <;>
              by_cases hq : env.queueOk <;>
      simp [hso, hm, hst, hcalc, hsr, hq, putOrders_append, putTrades_append,
        putOrders_sendEv, putTrades_sendEv, putOrders_nil, putTrades_nil,
        putOrders_cons_notify, putOrders_cons_putOrder, putOrders_cons_putTrade,
        putOrders_cons_settle, putOrders_cons_update, putOrders_cons_sqs,
        putTrades_cons_notify, putTrades_cons_putOrder, putTrades_cons_putTrade,
        putTrades_cons_settle, putTrades_cons_update, putTrades_cons_sqs]
  · intro opposing order comp hcalc hside
    cases hsym : order.symbol with
    | str sym =>
      cases hp : parseTradingPair sym with
      | error e =>
        simp only [calculateBalanceUpdates, hsym, hp] at hcalc
        exact absurd hcalc (by simp)
      | ok bq =>
        obtain ⟨b, q⟩ := bq
        cases hqAmt : toBigInt order.qty ((lookupDecimals b).getD 0) with
        | error e =>
          simp only [calculateBalanceUpdates, hsym, hp, hqAmt] at hcalc
          exact absurd hcalc (by simp)
        | ok B =>
          cases hpAmt : toBigInt order.price ((lookupDecimals q).getD 0) with
          | error e =>
            simp only [calculateBalanceUpdates, hsym, hp, hqAmt, hpAmt] at hcalc
            exact absurd hcalc (by simp)
          | ok P =>
            simp only [calculateBalanceUpdates, hsym, hp, hqAmt, hpAmt,
              Except.ok.injEq] at hcalc
            subst hcalc
            simp [hside]
    | undef => simp [calculateBalanceUpdates, hsym] at hcalc
    | null => simp [calculateBalanceUpdates, hsym] at hcalc
    | bool bb => simp [calculateBalanceUpdates, hsym] at hcalc
    | num m e => simp [calculateBalanceUpdates, hsym] at hcalc

/-- C7 witness: the amended side theorem instantiated at the side-less
scenario-A order and the side "XYZ" order. -/
theorem side_default_spec_witness :
    effectiveSide exOrder = "BUY".data ∧
    (putOrders (handler envAll (some pSideXYZ)).events).map StoredOrder.side =
      [if truthy pSideXYZ.side then pSideXYZ.side else JsVal.str "BUY".data] ∧
    (exComp.balanceUpdates.map BalanceUpdate.account).take 2 =
      [pSideXYZ.owner, pSideXYZ.owner] := by
  have h2 := side_default_spec.2.1 exOrder (by decide)
  have h3 := (side_default_spec.2.2.1 envAll pSideXYZ "market".data (by decide) (by decide)).1
  have h4 := side_default_spec.2.2.2 "0xopp".data pSideXYZ exComp (by decide) (by decide)
  exact ⟨h2, h3, h4⟩

/-- C8: the trading-pair parser recognizes only the separators "/", "-",
"_": it fails with the malformed-pair error when none of them occurs in the
symbol or when the side of the first occurring separator is empty,
propagates the unsupported-asset error when either (trimmed, upper-cased)
side is not in the static asset table, and parses "BTC/USDT" to base BTC
and quote USDT; as a Lean function it is pure by construction. -/
theorem parseTradingPair_spec :
    parseTradingPair "BTC/USDT".data = .ok ("BTC".data, "USDT".data) ∧
    parseTradingPair "BTC".data = .error (.malformedPair "BTC".data) ∧
    (∀ s : List Char, '/' ∉ s → '-' ∉ s → '_' ∉ s →
      parseTradingPair s = .error (.malformedPair s)) ∧
    (∀ (s : List Char) (sep : Char), findSep s = some sep →
      ((splitOnChar sep s).headD [] = [] ∨ ((splitOnChar sep s).drop 1).headD [] = []) →
      parseTradingPair s = .error (.malformedPair s)) ∧
    (∀ (s : List Char) (sep : Char), findSep s = some sep →
      (splitOnChar sep s).headD [] ≠ [] → ((splitOnChar sep s).drop 1).headD [] ≠ [] →
      lookupDecimals (toUpperList (trimList ((splitOnChar sep s).headD []))) = none →
      parseTradingPair s =
        .error (.unsupportedAsset (toUpperList (trimList ((splitOnChar sep s).headD []))))) ∧
    (∀ (s : List Char) (sep : Char), findSep s = some sep →
      (splitOnChar sep s).headD [] ≠ [] → ((splitOnChar sep s).drop 1).headD [] ≠ [] →
      (lookupDecimals (toUpperList (trimList ((splitOnChar sep s).headD [])))).isSome = true →
      lookupDecimals (toUpperList (trimList (((splitOnChar sep s).drop 1).headD []))) = none →
      parseTradingPair s =
        .error (.unsupportedAsset (toUpperList (trimList (((splitOnChar sep s).drop 1).headD []))))) := by
  refine ⟨by decide, by decide, ?_, ?_, ?_, ?_⟩
  · intro s h1 h2 h3
    unfold parseTradingPair findSep
    simp [h1, h2, h3]
  · intro s sep hs hempty
    unfold parseTradingPair
    rw [hs]
    simp only [hempty, if_pos]
  · intro s sep hs hb hq hlook
    rw [List.headD_eq_head?] at hb hlook
    rw [List.headD_eq_head?, List.head?_drop] at hq
    unfold parseTradingPair
    rw [hs]
    dsimp only
    rw [if_neg (by simp [hb, hq])]
    unfold normalizeSymbol
    simp [hlook]
  · intro s sep hs hb hq hbase hlook
    rw [List.headD_eq_head?] at hb hbase
    rw [List.headD_eq_head?, List.head?_drop] at hq hlook
    unfold parseTradingPair
    rw [hs]
    dsimp only
    rw [if_neg (by simp [hb, hq])]
    unfold normalizeSymbol
    simp [hbase, hlook]

/-- C8 witness: the parser theorem instantiated at "QQQ" (no separator),
"BTC/" (empty quote side), "XYZ/USDT" (unsupported base) and "BTC/ZZZ"
(unsupported quote). -/
theorem parseTradingPair_spec_witness :
    parseTradingPair "QQQ".data = .error (.malformedPair "QQQ".data) ∧
    parseTradingPair "BTC/".data = .error (.malformedPair "BTC/".data) ∧
    parseTradingPair "XYZ/USDT".data = .error (.unsupportedAsset "XYZ".data) ∧
    parseTradingPair "BTC/ZZZ".data = .error (.unsupportedAsset "ZZZ".data) := by
  refine ⟨?_, ?_, ?_, ?_⟩
  · exact parseTradingPair_spec.2.2.1 "QQQ".data (by decide) (by decide) (by decide)
  · exact parseTradingPair_spec.2.2.2.1 "BTC/".data '/' (by decide) (by decide)
  · exact parseTradingPair_spec.2.2.2.2.1 "XYZ/USDT".data '/' (by decide) (by decide)
      (by decide) (by decide)
  · exact parseTradingPair_spec.2.2.2.2.2 "BTC/ZZZ".data '/' (by decide) (by decide)
      (by decide) (by decide) (by decide)

/-- C9: the match decision is true for every MARKET order regardless of
the random draw, and equals the draw exactly for non-market (LIMIT) order
kinds; a validated MARKET order in a fully successful environment is
persisted with status FILLED and updatedAt = matchedAt, exactly one Trade
record is created carrying matchedAt, and the final notification is
ORDER_MATCHED. -/
theorem market_always_matched_spec :
    (∀ coin : Bool, matchDecision "market".data coin = true) ∧
    (∀ (t : List Char) (coin : Bool), t ≠ "market".data → matchDecision t coin = coin) ∧
    (∀ (env : Env) (order : Payload) (comp : SettlementComputation) (receipt : Receipt),
      env.connectionId ≠ [] →
      validOrder order = true →
      orderTypeOf order = some "market".data →
      env.storeOrderOk = true →
      env.storeTradeOk = true →
      calculateBalanceUpdates env.opposing order = .ok comp →
      env.settleResult = some receipt →
      env.queueOk = true →
      (handler env (some order)).statusCode = 200 ∧
      (putOrders (handler env (some order)).events).map StoredOrder.status =
        ["FILLED".data] ∧
      (putOrders (handler env (some order)).events).map StoredOrder.updatedAt =
        [env.matchedNow] ∧
      (putTrades (handler env (some order)).events).map StoredTrade.matchedAt =
        [env.matchedNow] ∧
      lastNotifType (handler env (some order)).events = some "ORDER_MATCHED".data) := by
  refine ⟨fun coin => by simp [matchDecision],
    fun t coin h => by simp [matchDecision, h], ?_⟩
  intro env order comp receipt hc hv ht hso hst hcalc hsr hq
  have hrun : proceed env order "market".data = ⟨200,
      [Event.putOrder
        { symbol := order.symbol, orderId := env.orderId, owner := order.owner,
          price := jsToString order.price, qty := jsToString order.qty,
          side := if truthy order.side then order.side else .str "BUY".data,
          orderType := "market".data, status := "FILLED".data,
          createdAt := env.now, updatedAt := env.matchedNow },
       Event.notify
        { channel := some "orders".data, evType := some "ORDER_RECEIVED".data,
          status := some "Order received".data, message := none },
       Event.putTrade
        { symbol := order.symbol, tradeId := env.tradeId, orderId := env.orderId,
          owner := order.owner, price := jsToString order.price,
          qty := jsToString order.qty,
          side := if truthy order.side then order.side else .str "BUY".data,
          orderType := "market".data, matchedAt := env.matchedNow, createdAt := env.now },
       Event.settleBatch (tradeHashOf env.tradeId) comp.balanceUpdates,
       Event.updateTrade env.tradeId receipt.txHash receipt.blockNumber,
       Event.sqsSend env.tradeId,
       Event.notify
        { channel := some "orders".data, evType := some "ORDER_MATCHED".data,
          status := some "Order matched".data, message := none }]⟩ := by
    simp [proceed, matchDecision, hso, hst, hcalc, hsr, hq, sendEv, hc]
  rw [handler_proceed env order "market".data hv ht, hrun]
  refine ⟨rfl, ?_, ?_, ?_, ?_⟩ <;>
    simp [putOrders, putTrades, notifList, lastNotifType]

/-- C9 witness: the market-match theorem instantiated at the concrete
scenario-A order in the all-success environment. -/
theorem market_always_matched_spec_witness :
    matchDecision "market".data false = true ∧
    matchDecision "limit".data false = false ∧
    (handler envAll (some exOrder)).statusCode = 200 ∧
    (putOrders (handler envAll (some exOrder)).events).map StoredOrder.status =
      ["FILLED".data] ∧
    lastNotifType (handler envAll (some exOrder)).events = some "ORDER_MATCHED".data := by
  have h2 := market_always_matched_spec.2.1 "limit".data false (by decide)
  have h := market_always_matched_spec.2.2 envAll exOrder exComp ⟨"0xhash".data, 7⟩
    (by decide) (by decide) (by decide) (by decide) (by decide) (by decide)
    (by decide) (by decide)
  exact ⟨market_always_matched_spec.1 false, h2, h.1, h.2.1, h.2.2.2.2⟩

/-- C10: the required-field check tests JavaScript truthiness: a price or
qty equal to the number 0 is falsy, so validation fails and the field is
reported in the "Missing required fields" message (the handler returns
HTTP 400); any non-empty string -- including "0", non-numeric strings and
negative numeric strings -- is truthy, so those fields pass, as witnessed
concretely by `pStrZero` (price "0", qty "-3") and `pBadPrice`
(price "abc"). -/
theorem truthiness_validation_spec :
    (∀ (order : Payload) (e : Nat), order.price = .num 0 e →
      validOrder order = false ∧ "price".data ∈ missingFields order) ∧
    (∀ (order : Payload) (e : Nat), order.qty = .num 0 e →
      validOrder order = false ∧ "qty".data ∈ missingFields order) ∧
    (∀ (env : Env) (order : Payload) (e : Nat), order.price = .num 0 e →
      (handler env (some order)).statusCode = 400 ∧
      appearsIn "price".data (rejectionMessage order)) ∧
    (∀ (order : Payload) (s : List Char), order.price = .str s → s ≠ [] →
      "price".data ∉ missingFields order) ∧
    (∀ (order : Payload) (s : List Char), order.qty = .str s → s ≠ [] →
      "qty".data ∉ missingFields order) ∧
    validOrder pStrZero = true ∧
    validOrder pBadPrice = true := by
  have hzero : ∀ (v : JsVal) (e : Nat), v = .num 0 e → truthy v = false := by
    intro v e hv; rw [hv]; simp [truthy]
  refine ⟨?_, ?_, ?_, ?_, ?_, by decide, by decide⟩
  · intro order e hp
    have ht := hzero _ _ hp
    exact ⟨by simp [validOrder, ht], by simp [missingFields, ht]⟩
  · intro order e hq
    have ht := hzero _ _ hq
    exact ⟨by simp [validOrder, ht], by simp [missingFields, ht]⟩
  · intro env order e hp
    have ht := hzero _ _ hp
    have hv : validOrder order = false := by simp [validOrder, ht]
    constructor
    · rw [handler_reject env order hv]; rfl
    · exact appearsIn_rejectionMessage order _ (by simp [missingFields, ht])
  · intro order s hp hs
    have ht : truthy order.price = true := by rw [hp]; simp [truthy, hs]
    intro hmem
    simp only [missingFields, ht, if_true, List.append_nil, List.nil_append,
      List.mem_append] at hmem
    split_ifs at hmem <;> revert hmem <;> decide
  · intro order s hq hs
    have ht : truthy order.qty = true := by rw [hq]; simp [truthy, hs]
    intro hmem
    simp only [missingFields, ht, if_true, List.append_nil, List.nil_append,
      List.mem_append] at hmem
    split_ifs at hmem <;> revert hmem <;> decide

/-- C10 witness: the truthiness theorem instantiated at the zero-price
order (rejected, "price" reported) and the string-"0"/negative-string
order (fields pass). -/
theorem truthiness_validation_spec_witness :
    validOrder pZeroPrice = false ∧
    "price".data ∈ missingFields pZeroPrice ∧
    (handler envAll (some pZeroPrice)).statusCode = 400 ∧
    appearsIn "price".data (rejectionMessage pZeroPrice) ∧
    "price".data ∉ missingFields pStrZero ∧
    "qty".data ∉ missingFields pStrZero := by
  have h1 := truthiness_validation_spec.1 pZeroPrice 0 rfl
  have h3 := truthiness_validation_spec.2.2.1 envAll pZeroPrice 0 rfl
  have h4 := truthiness_validation_spec.2.2.2.1 pStrZero "0".data rfl (by decide)
  have h5 := truthiness_validation_spec.2.2.2.2.1 pStrZero "-3".data rfl (by decide)
  exact ⟨h1.1, h1.2, h3.1, h3.2, h4, h5⟩

